import Mathlib

/-!
# Verification of the SWAPI demo (`src/swapi.js`)

A shallow embedding of the resource-fetch-and-cache layer, the five display
routines, the demo orchestrator and the HTTP route dispatch of `swapi.js`,
together with proofs of the specification's claims about them.

The network, `JSON.parse` and `new Date` are platform collaborators, not code
of the repository; they are modelled by oracles: a `NetResult` describes what
the network delivered for one request (a status code plus the parse result of
the accumulated body, a transport failure, or a timeout), and ISO
`YYYY-MM-DD` release-date strings are compared through their lexicographic
order, which agrees with the chronological order `new Date` induces on them.
-/

set_option autoImplicit false

namespace Swapi

/-- Parsed JSON values, as produced by `JSON.parse`.  Numbers are modelled as
integers; no verified property depends on fractional numerics. -/
inductive Json where
  | null : Json
  | bool : Bool → Json
  | num : Int → Json
  | str : String → Json
  | arr : List Json → Json
  | obj : List (String × Json) → Json

/-- JavaScript truthiness of a JSON value, as consulted by the guard
`if (cache[endpoint])` in `fetchResource` (swapi.js line 21).  `undefined`
(an absent key) is handled at the call site. -/
def Json.truthy : Json → Bool
  | .null => false
  | .bool b => b
  | .num n => n != 0
  | .str s => s != ""
  | .arr _ => true
  | .obj _ => true

mutual
/-- Length of the `JSON.stringify` serialization of a value, used for the
`totalDataSize` accumulation (swapi.js lines 68, 81, 102, 120, 136).  Escaping
inside string literals is not modelled: no verified property depends on exact
byte counts, only on the length being a natural number. -/
def jsonLen : Json → Nat
  | .null => 4
  | .bool b => if b then 4 else 5
  | .num n => (toString n).length
  | .str s => s.length + 2
  | .arr xs => 2 + jsonLenList xs
  | .obj fs => 2 + jsonLenFields fs

/-- Serialized length of the comma-separated elements of a JSON array. -/
def jsonLenList : List Json → Nat
  | [] => 0
  | [x] => jsonLen x
  | x :: y :: xs => jsonLen x + 1 + jsonLenList (y :: xs)

/-- Serialized length of the comma-separated members of a JSON object. -/
def jsonLenFields : List (String × Json) → Nat
  | [] => 0
  | [(k, v)] => k.length + 3 + jsonLen v
  | (k, v) :: f :: fs => k.length + 3 + jsonLen v + 1 + jsonLenFields (f :: fs)
end

/-- The module-level cache object `cache = {}` (swapi.js line 14), modelled as
an association list of endpoint keys to parsed JSON values, in property
insertion order. -/
abbrev Cache := List (String × Json)

/-- Property read `cache[endpoint]`: the value stored under the first matching
key, or `none` for `undefined`. -/
def cacheLookup : Cache → String → Option Json
  | [], _ => none
  | (k, v) :: rest, ep => if k = ep then some v else cacheLookup rest ep

/-- Property write `cache[endpoint] = json`: overwrite the value of an
existing key in place, otherwise append the new key. -/
def cacheInsert : Cache → String → Json → Cache
  | [], ep, j => [(ep, j)]
  | (k, v) :: rest, ep, j =>
    if k = ep then (k, j) :: rest else (k, v) :: cacheInsert rest ep j

/-- Constant `DEFAULT_TIMEOUT` (swapi.js line 5). -/
def DEFAULT_TIMEOUT : Nat := 5000

/-- Constant `LARGE_POPULATION` (swapi.js line 6). -/
def LARGE_POPULATION : Int := 1000000000

/-- Constant `LARGE_DIAMETER` (swapi.js line 7). -/
def LARGE_DIAMETER : Int := 10000

/-- Constant `STARSHIPS_LIMIT` (swapi.js line 8). -/
def STARSHIPS_LIMIT : Nat := 3

/-- Constant `MAX_VEHICLE_ID` (swapi.js line 9). -/
def MAX_VEHICLE_ID : Nat := 4

/-- The process-wide mutable state of `swapi.js` (lines 11-18): the resource
cache, the four counters, and the two configuration settings. -/
structure SwapiState where
  cache : Cache
  errorCount : Nat
  fetchCount : Nat
  totalDataSize : Nat
  lastCharacterId : Nat
  debugMode : Bool
  timeout : Nat

/-- The state at module load, before any request (swapi.js lines 11-18). -/
def initialState : SwapiState :=
  { cache := []
    errorCount := 0
    fetchCount := 0
    totalDataSize := 0
    lastCharacterId := 1
    debugMode := true
    timeout := DEFAULT_TIMEOUT }

/-- What the network delivers for one `https.get` request: a response (status
code plus the result of `JSON.parse` on the accumulated body, `none` when the
body is not valid JSON), a transport-level failure (the request `error`
event), or expiry of the `request.setTimeout` timer before the response
completes. -/
inductive NetResult where
  | response : Nat → Option Json → NetResult
  | transportFailure : NetResult
  | timedOut : NetResult

/-- The failure taxonomy of the Fetch Client contract (spec section 4.1): the
four distinct rejection paths of `fetchResource`.  `httpError` carries the
status code embedded in the rejection message of swapi.js line 32;
`timeoutFailure` carries the endpoint embedded in the message of line 61. -/
inductive FetchError where
  | httpError : Nat → FetchError
  | parseFailure : FetchError
  | networkFailure : FetchError
  | timeoutFailure : String → FetchError

/-- Everything one `fetchResource` call produces: the settled promise, the
state after the call, whether an `https.get` request was issued, and whether
the in-flight request was aborted by the timeout handler. -/
structure FetchResult where
  result : Except FetchError Json
  state : SwapiState
  networkCalled : Bool
  aborted : Bool

/-- The uncached path of `fetchResource` (swapi.js lines 26-63): issue the
GET, then settle according to what the network delivered. -/
def fetchNetwork (st : SwapiState) (endpoint : String) (net : NetResult) :
    FetchResult :=
  match net with
  | .response status parsed =>
    if 400 ≤ status then
      { result := .error (.httpError status)
        state := { st with errorCount := st.errorCount + 1 }
        networkCalled := true
        aborted := false }
    else
      match parsed with
      | some json =>
        { result := .ok json
          state := { st with cache := cacheInsert st.cache endpoint json }
          networkCalled := true
          aborted := false }
      | none =>
        { result := .error .parseFailure
          state := { st with errorCount := st.errorCount + 1 }
          networkCalled := true
          aborted := false }
  | .transportFailure =>
    { result := .error .networkFailure
      state := { st with errorCount := st.errorCount + 1 }
      networkCalled := true
      aborted := false }
  | .timedOut =>
    { result := .error (.timeoutFailure endpoint)
      state := { st with errorCount := st.errorCount + 1 }
      networkCalled := true
      aborted := true }

/-- `fetchResource(endpoint)` (swapi.js lines 20-64).  The cache guard is the
JavaScript truthiness test `if (cache[endpoint])`: an absent key and a stored
falsy value both fall through to the network. -/
def fetchResource (st : SwapiState) (endpoint : String) (net : NetResult) :
    FetchResult :=
  match cacheLookup st.cache endpoint with
  | some v =>
    if v.truthy then
      { result := .ok v, state := st, networkCalled := false, aborted := false }
    else fetchNetwork st endpoint net
  | none => fetchNetwork st endpoint net

/-- Outcome of one display routine: the settled promise (`ok` when the routine
returned normally, `error` when the fetch rejected and the rejection
propagated), the state afterwards, and the endpoints the routine passed to
`fetchResource`. -/
structure StepResult where
  result : Except FetchError Unit
  state : SwapiState
  fetched : List String

/-- The state effect shared by all five display routines (swapi.js
lines 66-68, 80-81, 101-102, 119-120, 135-136): await the fetch of one
endpoint and, on success, add the payload's `JSON.stringify(...).length` to
`totalDataSize`; a rejection propagates.  The printing of individual fields
is console output with no effect on the state. -/
def fetchAndMeasure (st : SwapiState) (endpoint : String)
    (net : String → NetResult) : StepResult :=
  let r := fetchResource st endpoint (net endpoint)
  match r.result with
  | .ok payload =>
    { result := .ok ()
      state := { r.state with
                  totalDataSize := r.state.totalDataSize + jsonLen payload }
      fetched := [endpoint] }
  | .error e => { result := .error e, state := r.state, fetched := [endpoint] }

/-- `displayCharacterData` (swapi.js lines 66-77): fetch
`people/<lastCharacterId>` and accumulate the payload size. -/
def displayCharacterData (st : SwapiState) (net : String → NetResult) :
    StepResult :=
  fetchAndMeasure st ("people/" ++ toString st.lastCharacterId) net

/-- `displayStarships` (swapi.js lines 79-98): fetch `starships/?page=1` and
accumulate the payload size. -/
def displayStarships (st : SwapiState) (net : String → NetResult) :
    StepResult :=
  fetchAndMeasure st "starships/?page=1" net

/-- `displayLargePlanets` (swapi.js lines 100-116): fetch `planets/?page=1`
and accumulate the payload size.  The filtering of the results is the pure
function `largePlanets` below. -/
def displayLargePlanets (st : SwapiState) (net : String → NetResult) :
    StepResult :=
  fetchAndMeasure st "planets/?page=1" net

/-- `displayFilms` (swapi.js lines 118-131): fetch `films/` and accumulate
the payload size.  The sorting of the results is the pure function
`sortFilms` below. -/
def displayFilms (st : SwapiState) (net : String → NetResult) : StepResult :=
  fetchAndMeasure st "films/" net

/-- `displayVehicle` (swapi.js lines 133-148): when `lastCharacterId` is at
most `MAX_VEHICLE_ID`, fetch `vehicles/<lastCharacterId>`, accumulate the
payload size and increment `lastCharacterId`; otherwise do nothing. -/
def displayVehicle (st : SwapiState) (net : String → NetResult) : StepResult :=
  if st.lastCharacterId ≤ MAX_VEHICLE_ID then
    let s := fetchAndMeasure st ("vehicles/" ++ toString st.lastCharacterId) net
    match s.result with
    | .ok _ =>
      { s with state := { s.state with
                           lastCharacterId := s.state.lastCharacterId + 1 } }
    | .error _ => s
  else { result := .ok (), state := st, fetched := [] }

/-- `runDemo` (swapi.js lines 160-175): increment `fetchCount`, run the five
display routines in order, and on the first rejection abort the remaining
steps and increment `errorCount` once more in the `catch` block. -/
def runDemo (st : SwapiState) (net : String → NetResult) : SwapiState :=
  let st0 := { st with fetchCount := st.fetchCount + 1 }
  let r1 := displayCharacterData st0 net
  match r1.result with
  | .error _ => { r1.state with errorCount := r1.state.errorCount + 1 }
  | .ok _ =>
  let r2 := displayStarships r1.state net
  match r2.result with
  | .error _ => { r2.state with errorCount := r2.state.errorCount + 1 }
  | .ok _ =>
  let r3 := displayLargePlanets r2.state net
  match r3.result with
  | .error _ => { r3.state with errorCount := r3.state.errorCount + 1 }
  | .ok _ =>
  let r4 := displayFilms r3.state net
  match r4.result with
  | .error _ => { r4.state with errorCount := r4.state.errorCount + 1 }
  | .ok _ =>
  let r5 := displayVehicle r4.state net
  match r5.result with
  | .error _ => { r5.state with errorCount := r5.state.errorCount + 1 }
  | .ok _ => r5.state

/-- Status line and Content-Type header of one HTTP response written by the
demo server. -/
structure HttpResponse where
  status : Nat
  contentType : String

/-- The request handler of `http.createServer` (swapi.js lines 187-248):
route on the exact request URL; `/api` fires `runDemo` and acknowledges
immediately; unmatched URLs get 404 `text/plain`. -/
def handleRequest (st : SwapiState) (url : String) (net : String → NetResult) :
    HttpResponse × SwapiState :=
  if url = "/" ∨ url = "/index.html" then
    ({ status := 200, contentType := "text/html" }, st)
  else if url = "/api" then
    ({ status := 200, contentType := "text/plain" }, runDemo st net)
  else if url = "/stats" then
    ({ status := 200, contentType := "application/json" }, st)
  else
    ({ status := 404, contentType := "text/plain" }, st)

/-- The operations of the program that can touch the process-wide state: a
direct Fetch Client call, each display routine, `displayStats` (a pure read,
swapi.js lines 150-158), an orchestrator run, and an inbound HTTP request. -/
inductive Op where
  | fetch : String → NetResult → Op
  | character : (String → NetResult) → Op
  | starships : (String → NetResult) → Op
  | planets : (String → NetResult) → Op
  | films : (String → NetResult) → Op
  | vehicle : (String → NetResult) → Op
  | stats : Op
  | demo : (String → NetResult) → Op
  | request : String → (String → NetResult) → Op

/-- Longest prefix of decimal digits of a character list. -/
def takeDigits : List Char → List Char
  | [] => []
  | c :: cs => if c.isDigit then c :: takeDigits cs else []

/-- Numeric value of a list of decimal digits. -/
def digitsVal (cs : List Char) : Nat :=
  cs.foldl (fun acc c => acc * 10 + (c.toNat - 48)) 0

/-- JavaScript `parseInt` with the default radix on the strings this program
feeds it: skip leading whitespace, read an optional sign and then the longest
prefix of decimal digits; `none` models the `NaN` returned when no digit is
found (swapi.js lines 106-107). -/
def parseIntJS (s : String) : Option Int :=
  match s.data.dropWhile Char.isWhitespace with
  | '-' :: rest =>
    let ds := takeDigits rest
    if ds.isEmpty then none else some (-(digitsVal ds : Int))
  | '+' :: rest =>
    let ds := takeDigits rest
    if ds.isEmpty then none else some ((digitsVal ds : Int))
  | cs =>
    let ds := takeDigits cs
    if ds.isEmpty then none else some ((digitsVal ds : Int))

/-- The fields of one entry of `planets.results` that the filter of
`displayLargePlanets` reads.  `population` and `diameter` arrive from the
remote service as strings (digit strings or the literal `"unknown"`). -/
structure Planet where
  name : String
  population : String
  diameter : String
  climate : String
deriving DecidableEq

/-- The filter condition of swapi.js lines 106-109: both fields parse to
numbers (`!isNaN`), the population strictly exceeds `LARGE_POPULATION` and
the diameter strictly exceeds `LARGE_DIAMETER`. -/
def isLargePlanet (population diameter : String) : Bool :=
  match parseIntJS population, parseIntJS diameter with
  | some p, some d => decide (LARGE_POPULATION < p) && decide (LARGE_DIAMETER < d)
  | _, _ => false

/-- The planets of a result page that `displayLargePlanets` prints
(swapi.js lines 105-115): exactly those passing `isLargePlanet`. -/
def largePlanets (results : List Planet) : List Planet :=
  results.filter fun planet => isLargePlanet planet.population planet.diameter

/-- The fields of one entry of `films.results` that `displayFilms` reads.
`release_date` is the ISO `YYYY-MM-DD` string the remote service sends. -/
structure Film where
  title : String
  release_date : String
  director : String
  producer : String
deriving DecidableEq

/-- The comparator of swapi.js line 122, `new Date(a.release_date) - new
Date(b.release_date)`, as the ordering it induces: on ISO `YYYY-MM-DD`
strings the timestamps of `new Date` order exactly as the strings do
lexicographically. -/
def filmLe (a b : Film) : Prop := a.release_date ≤ b.release_date

instance : DecidableRel filmLe := fun a b =>
  inferInstanceAs (Decidable (a.release_date ≤ b.release_date))

/-- `films.results.sort(comparator)` (swapi.js line 122): a stable sort of the
film list by the release-date comparator, as a stable insertion sort. -/
def sortFilms (films : List Film) : List Film :=
  List.insertionSort filmLe films

/-- The state after running one operation. -/
def applyOp (st : SwapiState) : Op → SwapiState
  | .fetch ep net => (fetchResource st ep net).state
  | .character net => (displayCharacterData st net).state
  | .starships net => (displayStarships st net).state
  | .planets net => (displayLargePlanets st net).state
  | .films net => (displayFilms st net).state
  | .vehicle net => (displayVehicle st net).state
  | .stats => st
  | .demo net => runDemo st net
  | .request url net => (handleRequest st url net).2

/-! ## Cache lemmas -/

theorem cacheLookup_cacheInsert_self (c : Cache) (ep : String) (j : Json) :
    cacheLookup (cacheInsert c ep j) ep = some j := by
  induction c with
  | nil => simp [cacheInsert, cacheLookup]
  | cons kv rest ih =>
    obtain ⟨k, v⟩ := kv
    by_cases h : k = ep
    · simp [cacheInsert, cacheLookup, h]
    · simp [cacheInsert, cacheLookup, h, ih]

theorem cacheLookup_cacheInsert_ne (c : Cache) (ep ep' : String) (j : Json)
    (h : ep ≠ ep') : cacheLookup (cacheInsert c ep' j) ep = cacheLookup c ep := by
  induction c with
  | nil => simp [cacheInsert, cacheLookup, Ne.symm h]
  | cons kv rest ih =>
    obtain ⟨k, v⟩ := kv
    by_cases hk : k = ep'
    · subst hk
      simp [cacheInsert, cacheLookup, Ne.symm h]
    · by_cases hke : k = ep
      · simp [cacheInsert, cacheLookup, hk, hke, h]
      · simp [cacheInsert, cacheLookup, hk, hke, ih]

/-! ## Field lemmas for the Fetch Client -/

theorem fetchNetwork_fetchCount (st : SwapiState) (ep : String)
    (net : NetResult) : (fetchNetwork st ep net).state.fetchCount = st.fetchCount := by
  cases net with
  | response status parsed => cases parsed <;> simp [fetchNetwork] <;> split <;> rfl
  | transportFailure => rfl
  | timedOut => rfl

theorem fetchNetwork_lastCharacterId (st : SwapiState) (ep : String)
    (net : NetResult) :
    (fetchNetwork st ep net).state.lastCharacterId = st.lastCharacterId := by
  cases net with
  | response status parsed => cases parsed <;> simp [fetchNetwork] <;> split <;> rfl
  | transportFailure => rfl
  | timedOut => rfl

theorem fetchNetwork_totalDataSize (st : SwapiState) (ep : String)
    (net : NetResult) :
    (fetchNetwork st ep net).state.totalDataSize = st.totalDataSize := by
  cases net with
  | response status parsed => cases parsed <;> simp [fetchNetwork] <;> split <;> rfl
  | transportFailure => rfl
  | timedOut => rfl

theorem errorCount_le_fetchNetwork (st : SwapiState) (ep : String)
    (net : NetResult) : st.errorCount ≤ (fetchNetwork st ep net).state.errorCount := by
  cases net with
  | response status parsed =>
    cases parsed <;> simp [fetchNetwork] <;> split <;> simp
  | transportFailure => simp [fetchNetwork]
  | timedOut => simp [fetchNetwork]

theorem fetchResource_fetchCount (st : SwapiState) (ep : String)
    (net : NetResult) : (fetchResource st ep net).state.fetchCount = st.fetchCount := by
  unfold fetchResource
  cases cacheLookup st.cache ep with
  | none => exact fetchNetwork_fetchCount st ep net
  | some v =>
    dsimp only
    split
    · rfl
    · exact fetchNetwork_fetchCount st ep net

theorem fetchResource_lastCharacterId (st : SwapiState) (ep : String)
    (net : NetResult) :
    (fetchResource st ep net).state.lastCharacterId = st.lastCharacterId := by
  unfold fetchResource
  cases cacheLookup st.cache ep with
  | none => exact fetchNetwork_lastCharacterId st ep net
  | some v =>
    dsimp only
    split
    · rfl
    · exact fetchNetwork_lastCharacterId st ep net

theorem fetchResource_totalDataSize (st : SwapiState) (ep : String)
    (net : NetResult) :
    (fetchResource st ep net).state.totalDataSize = st.totalDataSize := by
  unfold fetchResource
  cases cacheLookup st.cache ep with
  | none => exact fetchNetwork_totalDataSize st ep net
  | some v =>
    dsimp only
    split
    · rfl
    · exact fetchNetwork_totalDataSize st ep net

theorem errorCount_le_fetchResource (st : SwapiState) (ep : String)
    (net : NetResult) : st.errorCount ≤ (fetchResource st ep net).state.errorCount := by
  unfold fetchResource
  cases cacheLookup st.cache ep with
  | none => exact errorCount_le_fetchNetwork st ep net
  | some v =>
    dsimp only
    split
    · exact le_refl _
    · exact errorCount_le_fetchNetwork st ep net

theorem fetchNetwork_cache (st : SwapiState) (ep : String) (net : NetResult) :
    (fetchNetwork st ep net).state.cache = st.cache ∨
      ∃ j, (fetchNetwork st ep net).state.cache = cacheInsert st.cache ep j := by
  cases net with
  | response status parsed =>
    cases parsed with
    | none => simp [fetchNetwork]; split <;> simp
    | some j =>
      simp only [fetchNetwork]
      split
      · exact Or.inl rfl
      · exact Or.inr ⟨j, rfl⟩
  | transportFailure => exact Or.inl rfl
  | timedOut => exact Or.inl rfl

/-! ## Preservation of truthy cache entries -/

/-- Every cache entry of `s` holding a truthy value is still present,
unchanged, in `s'`. -/
def CachePres (s s' : SwapiState) : Prop :=
  ∀ ep v, cacheLookup s.cache ep = some v → v.truthy = true →
    cacheLookup s'.cache ep = some v

theorem cachePres_refl (s : SwapiState) : CachePres s s := fun _ _ h _ => h

theorem cachePres_trans {a b c : SwapiState} (h1 : CachePres a b)
    (h2 : CachePres b c) : CachePres a c :=
  fun ep v hv htr => h2 ep v (h1 ep v hv htr) htr

theorem cachePres_of_cache_eq {a b c : SwapiState} (h1 : CachePres a b)
    (h : c.cache = b.cache) : CachePres a c := by
  intro ep v hv htr
  rw [h]
  exact h1 ep v hv htr

theorem cachePres_fetchResource (st : SwapiState) (ep : String)
    (net : NetResult) : CachePres st (fetchResource st ep net).state := by
  unfold fetchResource
  cases hc : cacheLookup st.cache ep with
  | none =>
    intro ep0 v hv htr
    rcases fetchNetwork_cache st ep net with h | ⟨j, h⟩
    · rw [h]; exact hv
    · rw [h]
      by_cases he : ep0 = ep
      · subst he; rw [hv] at hc; cases hc
      · rw [cacheLookup_cacheInsert_ne _ _ _ _ he]; exact hv
  | some w =>
    dsimp only
    split
    · exact cachePres_refl st
    · next hw =>
      intro ep0 v hv htr
      rcases fetchNetwork_cache st ep net with h | ⟨j, h⟩
      · rw [h]; exact hv
      · rw [h]
        by_cases he : ep0 = ep
        · subst he
          rw [hv] at hc
          injection hc with hvw
          subst hvw
          exact absurd htr hw
        · rw [cacheLookup_cacheInsert_ne _ _ _ _ he]; exact hv

theorem fetchAndMeasure_state_cache (st : SwapiState) (ep : String)
    (net : String → NetResult) :
    (fetchAndMeasure st ep net).state.cache =
      (fetchResource st ep (net ep)).state.cache := by
  unfold fetchAndMeasure
  cases hr : (fetchResource st ep (net ep)).result <;> simp [hr]

theorem cachePres_fetchAndMeasure (st : SwapiState) (ep : String)
    (net : String → NetResult) : CachePres st (fetchAndMeasure st ep net).state :=
  cachePres_of_cache_eq (cachePres_fetchResource st ep (net ep))
    (fetchAndMeasure_state_cache st ep net)

theorem cachePres_displayVehicle (st : SwapiState) (net : String → NetResult) :
    CachePres st (displayVehicle st net).state := by
  unfold displayVehicle
  split
  · cases hs : (fetchAndMeasure st ("vehicles/" ++ toString st.lastCharacterId) net).result with
    | ok u =>
      simp only [hs]
      exact cachePres_of_cache_eq
        (cachePres_fetchAndMeasure st ("vehicles/" ++ toString st.lastCharacterId) net) rfl
    | error e =>
      simp only [hs]
      exact cachePres_fetchAndMeasure st ("vehicles/" ++ toString st.lastCharacterId) net
  · exact cachePres_refl st

theorem cachePres_errBump {a b : SwapiState} (h : CachePres a b) :
    CachePres a { b with errorCount := b.errorCount + 1 } :=
  cachePres_of_cache_eq h rfl

theorem cachePres_runDemo (st : SwapiState) (net : String → NetResult) :
    CachePres st (runDemo st net) := by
  simp only [runDemo]
  set st0 : SwapiState := { st with fetchCount := st.fetchCount + 1 } with hst0
  have h0 : CachePres st st0 := cachePres_of_cache_eq (cachePres_refl st) rfl
  have h1 : CachePres st (displayCharacterData st0 net).state :=
    cachePres_trans h0 (cachePres_fetchAndMeasure st0 _ net)
  cases (displayCharacterData st0 net).result with
  | error e => exact cachePres_errBump h1
  | ok u1 =>
  have h2 : CachePres st
      (displayStarships (displayCharacterData st0 net).state net).state :=
    cachePres_trans h1 (cachePres_fetchAndMeasure _ _ net)
  cases (displayStarships (displayCharacterData st0 net).state net).result with
  | error e => exact cachePres_errBump h2
  | ok u2 =>
  have h3 : CachePres st
      (displayLargePlanets
        (displayStarships (displayCharacterData st0 net).state net).state
        net).state :=
    cachePres_trans h2 (cachePres_fetchAndMeasure _ _ net)
  cases (displayLargePlanets
      (displayStarships (displayCharacterData st0 net).state net).state
      net).result with
  | error e => exact cachePres_errBump h3
  | ok u3 =>
  have h4 : CachePres st
      (displayFilms
        (displayLargePlanets
          (displayStarships (displayCharacterData st0 net).state net).state
          net).state net).state :=
    cachePres_trans h3 (cachePres_fetchAndMeasure _ _ net)
  cases (displayFilms
      (displayLargePlanets
        (displayStarships (displayCharacterData st0 net).state net).state
        net).state net).result with
  | error e => exact cachePres_errBump h4
  | ok u4 =>
  have h5 : CachePres st
      (displayVehicle
        (displayFilms
          (displayLargePlanets
            (displayStarships (displayCharacterData st0 net).state net).state
            net).state net).state net).state :=
    cachePres_trans h4 (cachePres_displayVehicle _ net)
  cases (displayVehicle
      (displayFilms
        (displayLargePlanets
          (displayStarships (displayCharacterData st0 net).state net).state
          net).state net).state net).result with
  | error e => exact cachePres_errBump h5
  | ok u5 => exact h5

theorem cachePres_handleRequest (st : SwapiState) (url : String)
    (net : String → NetResult) : CachePres st (handleRequest st url net).2 := by
  unfold handleRequest
  split
  · exact cachePres_refl st
  · split
    · exact cachePres_runDemo st net
    · split
      · exact cachePres_refl st
      · exact cachePres_refl st

/-! ## Monotonicity of the four counters -/

/-- None of the four counters decreases from `s` to `s'`. -/
def CountersLe (s s' : SwapiState) : Prop :=
  s.errorCount ≤ s'.errorCount ∧ s.fetchCount ≤ s'.fetchCount ∧
    s.totalDataSize ≤ s'.totalDataSize ∧ s.lastCharacterId ≤ s'.lastCharacterId

theorem countersLe_refl (s : SwapiState) : CountersLe s s :=
  ⟨le_refl _, le_refl _, le_refl _, le_refl _⟩

theorem countersLe_trans {a b c : SwapiState} (h1 : CountersLe a b)
    (h2 : CountersLe b c) : CountersLe a c :=
  ⟨h1.1.trans h2.1, h1.2.1.trans h2.2.1, h1.2.2.1.trans h2.2.2.1,
    h1.2.2.2.trans h2.2.2.2⟩

theorem countersLe_fetchResource (st : SwapiState) (ep : String)
    (net : NetResult) : CountersLe st (fetchResource st ep net).state :=
  ⟨errorCount_le_fetchResource st ep net,
    le_of_eq (fetchResource_fetchCount st ep net).symm,
    le_of_eq (fetchResource_totalDataSize st ep net).symm,
    le_of_eq (fetchResource_lastCharacterId st ep net).symm⟩

theorem fetchAndMeasure_state_errorCount (st : SwapiState) (ep : String)
    (net : String → NetResult) :
    (fetchAndMeasure st ep net).state.errorCount =
      (fetchResource st ep (net ep)).state.errorCount := by
  unfold fetchAndMeasure
  cases hr : (fetchResource st ep (net ep)).result <;> simp [hr]

theorem fetchAndMeasure_state_fetchCount (st : SwapiState) (ep : String)
    (net : String → NetResult) :
    (fetchAndMeasure st ep net).state.fetchCount = st.fetchCount := by
  unfold fetchAndMeasure
  cases hr : (fetchResource st ep (net ep)).result <;>
    simp [hr, fetchResource_fetchCount]

theorem fetchAndMeasure_state_lastCharacterId (st : SwapiState) (ep : String)
    (net : String → NetResult) :
    (fetchAndMeasure st ep net).state.lastCharacterId = st.lastCharacterId := by
  unfold fetchAndMeasure
  cases hr : (fetchResource st ep (net ep)).result <;>
    simp [hr, fetchResource_lastCharacterId]

theorem totalDataSize_le_fetchAndMeasure (st : SwapiState) (ep : String)
    (net : String → NetResult) :
    st.totalDataSize ≤ (fetchAndMeasure st ep net).state.totalDataSize := by
  unfold fetchAndMeasure
  cases hr : (fetchResource st ep (net ep)).result <;>
    simp [hr, fetchResource_totalDataSize]

theorem countersLe_fetchAndMeasure (st : SwapiState) (ep : String)
    (net : String → NetResult) : CountersLe st (fetchAndMeasure st ep net).state := by
  refine ⟨?_, le_of_eq (fetchAndMeasure_state_fetchCount st ep net).symm,
    totalDataSize_le_fetchAndMeasure st ep net,
    le_of_eq (fetchAndMeasure_state_lastCharacterId st ep net).symm⟩
  rw [fetchAndMeasure_state_errorCount]
  exact errorCount_le_fetchResource st ep (net ep)

theorem countersLe_displayVehicle (st : SwapiState) (net : String → NetResult) :
    CountersLe st (displayVehicle st net).state := by
  unfold displayVehicle
  split
  · cases hs : (fetchAndMeasure st ("vehicles/" ++ toString st.lastCharacterId)
        net).result with
    | ok u =>
      simp only [hs]
      refine countersLe_trans
        (countersLe_fetchAndMeasure st ("vehicles/" ++ toString st.lastCharacterId) net)
        ⟨le_refl _, le_refl _, le_refl _, ?_⟩
      exact Nat.le_succ _
    | error e =>
      simp only [hs]
      exact countersLe_fetchAndMeasure st ("vehicles/" ++ toString st.lastCharacterId) net
  · exact countersLe_refl st

theorem countersLe_errBump {a b : SwapiState} (h : CountersLe a b) :
    CountersLe a { b with errorCount := b.errorCount + 1 } :=
  countersLe_trans h ⟨Nat.le_succ _, le_refl _, le_refl _, le_refl _⟩

theorem countersLe_runDemo (st : SwapiState) (net : String → NetResult) :
    CountersLe st (runDemo st net) := by
  simp only [runDemo]
  set st0 : SwapiState := { st with fetchCount := st.fetchCount + 1 } with hst0
  have h0 : CountersLe st st0 :=
    ⟨le_refl _, Nat.le_succ _, le_refl _, le_refl _⟩
  have h1 : CountersLe st (displayCharacterData st0 net).state :=
    countersLe_trans h0 (countersLe_fetchAndMeasure st0 _ net)
  cases (displayCharacterData st0 net).result with
  | error e => exact countersLe_errBump h1
  | ok u1 =>
  have h2 : CountersLe st
      (displayStarships (displayCharacterData st0 net).state net).state :=
    countersLe_trans h1 (countersLe_fetchAndMeasure _ _ net)
  cases (displayStarships (displayCharacterData st0 net).state net).result with
  | error e => exact countersLe_errBump h2
  | ok u2 =>
  have h3 : CountersLe st
      (displayLargePlanets
        (displayStarships (displayCharacterData st0 net).state net).state
        net).state :=
    countersLe_trans h2 (countersLe_fetchAndMeasure _ _ net)
  cases (displayLargePlanets
      (displayStarships (displayCharacterData st0 net).state net).state
      net).result with
  | error e => exact countersLe_errBump h3
  | ok u3 =>
  have h4 : CountersLe st
      (displayFilms
        (displayLargePlanets
          (displayStarships (displayCharacterData st0 net).state net).state
          net).state net).state :=
    countersLe_trans h3 (countersLe_fetchAndMeasure _ _ net)
  cases (displayFilms
      (displayLargePlanets
        (displayStarships (displayCharacterData st0 net).state net).state
        net).state net).result with
  | error e => exact countersLe_errBump h4
  | ok u4 =>
  have h5 : CountersLe st
      (displayVehicle
        (displayFilms
          (displayLargePlanets
            (displayStarships (displayCharacterData st0 net).state net).state
            net).state net).state net).state :=
    countersLe_trans h4 (countersLe_displayVehicle _ net)
  cases (displayVehicle
      (displayFilms
        (displayLargePlanets
          (displayStarships (displayCharacterData st0 net).state net).state
          net).state net).state net).result with
  | error e => exact countersLe_errBump h5
  | ok u5 => exact h5

theorem countersLe_handleRequest (st : SwapiState) (url : String)
    (net : String → NetResult) : CountersLe st (handleRequest st url net).2 := by
  unfold handleRequest
  split
  · exact countersLe_refl st
  · split
    · exact countersLe_runDemo st net
    · split
      · exact countersLe_refl st
      · exact countersLe_refl st

theorem countersLe_applyOp (st : SwapiState) (op : Op) :
    CountersLe st (applyOp st op) := by
  cases op with
  | fetch ep net => exact countersLe_fetchResource st ep net
  | character net => exact countersLe_fetchAndMeasure st _ net
  | starships net => exact countersLe_fetchAndMeasure st _ net
  | planets net => exact countersLe_fetchAndMeasure st _ net
  | films net => exact countersLe_fetchAndMeasure st _ net
  | vehicle net => exact countersLe_displayVehicle st net
  | stats => exact countersLe_refl st
  | demo net => exact countersLe_runDemo st net
  | request url net => exact countersLe_handleRequest st url net

/-! ## Evolution of the vehicle cursor -/

/-- From `s` to `s'` the cursor `lastCharacterId` is unchanged, or was at
most `MAX_VEHICLE_ID` and grew by exactly one. -/
def IdStep (s s' : SwapiState) : Prop :=
  s'.lastCharacterId = s.lastCharacterId ∨
    (s.lastCharacterId ≤ MAX_VEHICLE_ID ∧
      s'.lastCharacterId = s.lastCharacterId + 1)

theorem idStep_of_eq {a b : SwapiState}
    (h : b.lastCharacterId = a.lastCharacterId) : IdStep a b := Or.inl h

theorem idStep_comp_eq_left {a b c : SwapiState}
    (hab : b.lastCharacterId = a.lastCharacterId) (hbc : IdStep b c) :
    IdStep a c := by
  rcases hbc with h | ⟨hle, h⟩
  · exact Or.inl (h.trans hab)
  · exact Or.inr ⟨hab ▸ hle, by rw [h, hab]⟩

theorem idStep_comp_eq_right {a b c : SwapiState} (hab : IdStep a b)
    (hbc : c.lastCharacterId = b.lastCharacterId) : IdStep a c := by
  rcases hab with h | ⟨hle, h⟩
  · exact Or.inl (hbc.trans h)
  · exact Or.inr ⟨hle, hbc.trans h⟩

theorem fetchAndMeasure_fetched (st : SwapiState) (ep : String)
    (net : String → NetResult) : (fetchAndMeasure st ep net).fetched = [ep] := by
  unfold fetchAndMeasure
  cases hr : (fetchResource st ep (net ep)).result <;> simp [hr]

theorem displayVehicle_of_gt (st : SwapiState) (net : String → NetResult)
    (h : MAX_VEHICLE_ID < st.lastCharacterId) :
    displayVehicle st net = { result := .ok (), state := st, fetched := [] } := by
  unfold displayVehicle
  rw [if_neg (Nat.not_le_of_lt h)]

theorem displayVehicle_fetched (st : SwapiState) (net : String → NetResult) :
    (displayVehicle st net).fetched =
      if st.lastCharacterId ≤ MAX_VEHICLE_ID then
        ["vehicles/" ++ toString st.lastCharacterId]
      else [] := by
  unfold displayVehicle
  split
  · cases hs : (fetchAndMeasure st ("vehicles/" ++ toString st.lastCharacterId)
        net).result with
    | ok u => simp only [hs]; exact fetchAndMeasure_fetched st _ net
    | error e => simp only [hs]; exact fetchAndMeasure_fetched st _ net
  · rfl

theorem idStep_displayVehicle (st : SwapiState) (net : String → NetResult) :
    IdStep st (displayVehicle st net).state := by
  unfold displayVehicle
  split
  · next h =>
    cases hs : (fetchAndMeasure st ("vehicles/" ++ toString st.lastCharacterId)
        net).result with
    | ok u =>
      simp only [hs]
      exact Or.inr ⟨h, by
        simp [fetchAndMeasure_state_lastCharacterId]⟩
    | error e =>
      simp only [hs]
      exact idStep_of_eq (fetchAndMeasure_state_lastCharacterId st _ net)
  · exact idStep_of_eq rfl

theorem idStep_runDemo (st : SwapiState) (net : String → NetResult) :
    IdStep st (runDemo st net) := by
  simp only [runDemo]
  set st0 : SwapiState := { st with fetchCount := st.fetchCount + 1 } with hst0
  have e0 : st0.lastCharacterId = st.lastCharacterId := rfl
  have e1 : (displayCharacterData st0 net).state.lastCharacterId =
      st.lastCharacterId :=
    (fetchAndMeasure_state_lastCharacterId st0 _ net).trans e0
  cases (displayCharacterData st0 net).result with
  | error e => exact idStep_of_eq e1
  | ok u1 =>
  have e2 : (displayStarships (displayCharacterData st0 net).state
      net).state.lastCharacterId = st.lastCharacterId :=
    (fetchAndMeasure_state_lastCharacterId _ _ net).trans e1
  cases (displayStarships (displayCharacterData st0 net).state net).result with
  | error e => exact idStep_of_eq e2
  | ok u2 =>
  have e3 : (displayLargePlanets
      (displayStarships (displayCharacterData st0 net).state net).state
      net).state.lastCharacterId = st.lastCharacterId :=
    (fetchAndMeasure_state_lastCharacterId _ _ net).trans e2
  cases (displayLargePlanets
      (displayStarships (displayCharacterData st0 net).state net).state
      net).result with
  | error e => exact idStep_of_eq e3
  | ok u3 =>
  have e4 : (displayFilms
      (displayLargePlanets
        (displayStarships (displayCharacterData st0 net).state net).state
        net).state net).state.lastCharacterId = st.lastCharacterId :=
    (fetchAndMeasure_state_lastCharacterId _ _ net).trans e3
  cases (displayFilms
      (displayLargePlanets
        (displayStarships (displayCharacterData st0 net).state net).state
        net).state net).result with
  | error e => exact idStep_of_eq e4
  | ok u4 =>
  have h5 : IdStep st
      (displayVehicle
        (displayFilms
          (displayLargePlanets
            (displayStarships (displayCharacterData st0 net).state net).state
            net).state net).state net).state :=
    idStep_comp_eq_left e4 (idStep_displayVehicle _ net)
  cases (displayVehicle
      (displayFilms
        (displayLargePlanets
          (displayStarships (displayCharacterData st0 net).state net).state
          net).state net).state net).result with
  | error e => exact idStep_comp_eq_right h5 rfl
  | ok u5 => exact h5

theorem idStep_handleRequest (st : SwapiState) (url : String)
    (net : String → NetResult) : IdStep st (handleRequest st url net).2 := by
  unfold handleRequest
  split
  · exact idStep_of_eq rfl
  · split
    · exact idStep_runDemo st net
    · split
      · exact idStep_of_eq rfl
      · exact idStep_of_eq rfl

theorem idStep_applyOp (st : SwapiState) (op : Op) :
    IdStep st (applyOp st op) := by
  cases op with
  | fetch ep net => exact idStep_of_eq (fetchResource_lastCharacterId st ep net)
  | character net => exact idStep_of_eq (fetchAndMeasure_state_lastCharacterId st _ net)
  | starships net => exact idStep_of_eq (fetchAndMeasure_state_lastCharacterId st _ net)
  | planets net => exact idStep_of_eq (fetchAndMeasure_state_lastCharacterId st _ net)
  | films net => exact idStep_of_eq (fetchAndMeasure_state_lastCharacterId st _ net)
  | vehicle net => exact idStep_displayVehicle st net
  | stats => exact idStep_of_eq rfl
  | demo net => exact idStep_runDemo st net
  | request url net => exact idStep_handleRequest st url net

theorem cachePres_applyOp (st : SwapiState) (op : Op) :
    CachePres st (applyOp st op) := by
  cases op with
  | fetch ep net => exact cachePres_fetchResource st ep net
  | character net => exact cachePres_fetchAndMeasure st _ net
  | starships net => exact cachePres_fetchAndMeasure st _ net
  | planets net => exact cachePres_fetchAndMeasure st _ net
  | films net => exact cachePres_fetchAndMeasure st _ net
  | vehicle net => exact cachePres_displayVehicle st net
  | stats => exact cachePres_refl st
  | demo net => exact cachePres_runDemo st net
  | request url net => exact cachePres_handleRequest st url net

/-! ## The cached fast path and the key under which a success is stored -/

theorem fetchResource_cached (st : SwapiState) (ep : String) (v : Json)
    (hv : cacheLookup st.cache ep = some v) (htr : v.truthy = true)
    (net : NetResult) :
    fetchResource st ep net =
      { result := .ok v, state := st, networkCalled := false,
        aborted := false } := by
  unfold fetchResource
  rw [hv]
  dsimp only
  rw [if_pos htr]

theorem fetchNetwork_ok_lookup (st : SwapiState) (ep : String)
    (net : NetResult) (v : Json)
    (h : (fetchNetwork st ep net).result = .ok v) :
    cacheLookup (fetchNetwork st ep net).state.cache ep = some v := by
  cases net with
  | response status parsed =>
    by_cases hs : 400 ≤ status
    · simp only [fetchNetwork, if_pos hs] at h
      exact Except.noConfusion h
    · cases parsed with
      | some j =>
        simp only [fetchNetwork, if_neg hs] at h ⊢
        injection h with hjv
        subst hjv
        exact cacheLookup_cacheInsert_self st.cache ep _
      | none =>
        simp only [fetchNetwork, if_neg hs] at h
        exact Except.noConfusion h
  | transportFailure => exact Except.noConfusion h
  | timedOut => exact Except.noConfusion h

theorem fetchResource_ok_lookup (st : SwapiState) (ep : String)
    (net : NetResult) (v : Json)
    (h : (fetchResource st ep net).result = .ok v) :
    cacheLookup (fetchResource st ep net).state.cache ep = some v := by
  unfold fetchResource at h ⊢
  cases hc : cacheLookup st.cache ep with
  | none =>
    rw [hc] at h
    exact fetchNetwork_ok_lookup st ep net v h
  | some w =>
    rw [hc] at h
    dsimp only at h ⊢
    by_cases htw : w.truthy = true
    · rw [if_pos htw] at h ⊢
      dsimp only at h
      injection h with hwv
      subst hwv
      exact hc
    · rw [if_neg htw] at h ⊢
      exact fetchNetwork_ok_lookup st ep net v h

/-! ## The planet filter and the film comparator, characterized -/

theorem isLargePlanet_iff (pop diam : String) :
    isLargePlanet pop diam = true ↔
      (∃ p, parseIntJS pop = some p ∧ LARGE_POPULATION < p) ∧
      (∃ d, parseIntJS diam = some d ∧ LARGE_DIAMETER < d) := by
  unfold isLargePlanet
  cases hp : parseIntJS pop <;> cases hd : parseIntJS diam <;> simp

instance : IsTotal Film filmLe :=
  ⟨fun a b => le_total a.release_date b.release_date⟩

instance : IsTrans Film filmLe :=
  ⟨fun _ _ _ hab hbc => le_trans hab hbc⟩

/-! ## The claims -/

/-- C1, counterexample: the claim fails for a cached falsy JSON value.  The
first fetch of `planets/1` succeeds with body `null` (valid JSON) and stores
it, yet the second `fetchResource` call for the same endpoint issues another
network request, because `if (cache[endpoint])` is a truthiness test and
`null` is falsy. -/
theorem second_fetch_of_null_hits_network :
    (fetchResource initialState "planets/1"
        (NetResult.response 200 (some Json.null))).result = .ok Json.null ∧
    cacheLookup (fetchResource initialState "planets/1"
        (NetResult.response 200 (some Json.null))).state.cache "planets/1" =
      some Json.null ∧
    (fetchResource (fetchResource initialState "planets/1"
          (NetResult.response 200 (some Json.null))).state "planets/1"
        (NetResult.response 200 (some Json.null))).networkCalled = true :=
  ⟨rfl, rfl, rfl⟩

/-- C1, amended: when the first fetch of an endpoint returns a truthy JSON
value, the second `fetchResource` call for that endpoint returns the
identical cached value immediately, with no network request, no abort, and a
completely unchanged state (so no error or attempt counter moves on the
cached path).  A falsy fetched value (`null`, `false`, `0`, `""`) is not
recognized by the truthiness cache guard and triggers a second network
request instead. -/
theorem fetch_twice_returns_cached (st : SwapiState) (ep : String) (v : Json)
    (net2 : NetResult)
    (h : (fetchResource st ep (NetResult.response 200 (some v))).result = .ok v)
    (htr : v.truthy = true) :
    fetchResource (fetchResource st ep
        (NetResult.response 200 (some v))).state ep net2 =
      { result := .ok v
        state := (fetchResource st ep (NetResult.response 200 (some v))).state
        networkCalled := false
        aborted := false } :=
  fetchResource_cached _ ep v
    (fetchResource_ok_lookup st ep (NetResult.response 200 (some v)) v h) htr
    net2

/-- C1, witness: the amended theorem applied to a first fetch of `people/1`
answered with the (truthy) empty JSON object. -/
theorem fetch_twice_returns_cached_instance :
    fetchResource (fetchResource initialState "people/1"
        (NetResult.response 200 (some (Json.obj [])))).state "people/1"
        NetResult.timedOut =
      { result := .ok (Json.obj [])
        state := (fetchResource initialState "people/1"
          (NetResult.response 200 (some (Json.obj [])))).state
        networkCalled := false
        aborted := false } :=
  fetch_twice_returns_cached initialState "people/1" (Json.obj [])
    NetResult.timedOut rfl rfl

/-- C2: fetching an uncached endpoint whose response does not complete before
the timeout timer fires aborts the in-flight request, fails with the timeout
rejection carrying the endpoint, and increments the error counter exactly
once at the Fetch Client layer — every other state component is unchanged. -/
theorem timeout_aborts_and_counts_once (st : SwapiState) (ep : String)
    (h : cacheLookup st.cache ep = none) :
    fetchResource st ep NetResult.timedOut =
      { result := .error (.timeoutFailure ep)
        state := { st with errorCount := st.errorCount + 1 }
        networkCalled := true
        aborted := true } := by
  unfold fetchResource
  rw [h]
  rfl

/-- C2, witness: the timeout theorem applied to the uncached initial state. -/
theorem timeout_aborts_and_counts_once_instance :
    fetchResource initialState "people/1" NetResult.timedOut =
      { result := .error (.timeoutFailure "people/1")
        state := { initialState with errorCount := initialState.errorCount + 1 }
        networkCalled := true
        aborted := true } :=
  timeout_aborts_and_counts_once initialState "people/1" rfl

/-- C3, counterexample: a cache entry holding the falsy value `null` is
updated in place by a later fetch of the same endpoint, so the cache is not
write-once for every stored JSON value. -/
theorem cache_entry_overwritten_for_null :
    cacheLookup (fetchResource initialState "planets/1"
        (NetResult.response 200 (some Json.null))).state.cache "planets/1" =
      some Json.null ∧
    cacheLookup (fetchResource (fetchResource initialState "planets/1"
          (NetResult.response 200 (some Json.null))).state "planets/1"
        (NetResult.response 200 (some (Json.num 7)))).state.cache "planets/1" =
      some (Json.num 7) :=
  ⟨rfl, rfl⟩

/-- C3, amended: once a cache entry holding a *truthy* JSON value is present
for an endpoint, no subsequent operation of the program (a Fetch Client
call, any display routine, an orchestrator run, or an inbound HTTP request)
updates or removes it.  An entry holding a falsy value (`null`, `false`,
`0`, `""`) escapes the truthiness cache guard and can be overwritten by a
later fetch of the same endpoint. -/
theorem truthy_cache_entry_write_once (st : SwapiState) (ep : String)
    (v : Json) (op : Op) (hv : cacheLookup st.cache ep = some v)
    (htr : v.truthy = true) :
    cacheLookup (applyOp st op).cache ep = some v :=
  cachePres_applyOp st op ep v hv htr

/-- C3, witness: a truthy entry for `people/1` survives a `runDemo`
orchestrator run in which every network response times out. -/
theorem truthy_cache_entry_write_once_instance :
    cacheLookup (applyOp
        { initialState with cache := [("people/1", Json.obj [])] }
        (Op.demo fun _ => NetResult.timedOut)).cache "people/1" =
      some (Json.obj []) :=
  truthy_cache_entry_write_once
    { initialState with cache := [("people/1", Json.obj [])] }
    "people/1" (Json.obj []) (Op.demo fun _ => NetResult.timedOut) rfl rfl

/-- C4: fetching an uncached endpoint whose response has a status code of at
least 400 fails with the HTTP-error rejection carrying that status code,
increments the error counter once, and changes nothing else — in particular
the cache is left unchanged, so the value is not cached. -/
theorem http_error_counts_and_does_not_cache (st : SwapiState) (ep : String)
    (status : Nat) (parsed : Option Json)
    (h : cacheLookup st.cache ep = none) (hs : 400 ≤ status) :
    fetchResource st ep (NetResult.response status parsed) =
      { result := .error (.httpError status)
        state := { st with errorCount := st.errorCount + 1 }
        networkCalled := true
        aborted := false } := by
  simp only [fetchResource, fetchNetwork, h, if_pos hs]

/-- C4, witness: the HTTP-error theorem applied to a 404 response for an
uncached endpoint. -/
theorem http_error_counts_and_does_not_cache_instance :
    fetchResource initialState "people/9999"
        (NetResult.response 404 (some (Json.obj []))) =
      { result := .error (.httpError 404)
        state := { initialState with errorCount := initialState.errorCount + 1 }
        networkCalled := true
        aborted := false } :=
  http_error_counts_and_does_not_cache initialState "people/9999" 404
    (some (Json.obj [])) rfl (by decide)

/-- C5: fetching an uncached endpoint whose successful (status below 400)
response body is not valid JSON fails with the parse-error rejection,
increments the error counter once, and changes nothing else — in particular
the cache is left unchanged for that endpoint. -/
theorem parse_error_counts_and_does_not_cache (st : SwapiState) (ep : String)
    (status : Nat) (h : cacheLookup st.cache ep = none) (hs : status < 400) :
    fetchResource st ep (NetResult.response status none) =
      { result := .error .parseFailure
        state := { st with errorCount := st.errorCount + 1 }
        networkCalled := true
        aborted := false } := by
  simp only [fetchResource, fetchNetwork, h, if_neg (Nat.not_le_of_lt hs)]

/-- C5, witness: the parse-error theorem applied to a 200 response whose body
is not valid JSON, for an uncached endpoint. -/
theorem parse_error_counts_and_does_not_cache_instance :
    fetchResource initialState "people/1" (NetResult.response 200 none) =
      { result := .error .parseFailure
        state := { initialState with errorCount := initialState.errorCount + 1 }
        networkCalled := true
        aborted := false } :=
  parse_error_counts_and_does_not_cache initialState "people/1" 200 rfl
    (by decide)

/-- C6: the planet display includes exactly the planets of the fetched page
whose population parses to a number strictly above `LARGE_POPULATION`
(1,000,000,000) and whose diameter parses to a number strictly above
`LARGE_DIAMETER` (10,000); a non-numeric field such as `"unknown"` simply
excludes the planet.  In particular a planet with population `"1500000000"`
and diameter `"12000"` passes the filter and one with population
`"unknown"` does not. -/
theorem large_planets_filter_exact :
    (∀ (results : List Planet) (p : Planet),
        p ∈ largePlanets results ↔
          p ∈ results ∧
            (∃ pop, parseIntJS p.population = some pop ∧
              LARGE_POPULATION < pop) ∧
            (∃ d, parseIntJS p.diameter = some d ∧ LARGE_DIAMETER < d)) ∧
      isLargePlanet "1500000000" "12000" = true ∧
      isLargePlanet "unknown" "12000" = false := by
  refine ⟨fun results p => ?_, by decide, by decide⟩
  rw [largePlanets, List.mem_filter, isLargePlanet_iff]

/-- C7: the film display sorts the fetched film list ascending by release
date: the output is a permutation of the input that is sorted under the
release-date comparator, so for any two films the one with the earlier
release date is printed first, regardless of input order. -/
theorem films_printed_in_release_order (films : List Film) :
    (sortFilms films).Perm films ∧ List.Sorted filmLe (sortFilms films) :=
  ⟨List.perm_insertionSort filmLe films,
    List.sorted_insertionSort filmLe films⟩

/-- C8, counterexample: the URL `/index.html` is none of the three routes
`/`, `/api`, `/stats`, yet the server answers it with 200 `text/html`, not
404 — the `/` branch of the router also matches `/index.html`. -/
theorem index_html_is_not_404 :
    ("/index.html" ≠ "/" ∧ "/index.html" ≠ "/api" ∧
        "/index.html" ≠ "/stats") ∧
      (handleRequest initialState "/index.html"
          (fun _ => NetResult.timedOut)).1 =
        { status := 200, contentType := "text/html" } :=
  ⟨⟨by decide, by decide, by decide⟩, rfl⟩

/-- C8, amended: every request whose URL is none of the *four* matched URLs
`/`, `/index.html`, `/api`, `/stats` is answered with status 404 and
Content-Type `text/plain`, and leaves the state unchanged. -/
theorem unmatched_url_gets_404 (st : SwapiState) (url : String)
    (net : String → NetResult) (h1 : url ≠ "/") (h2 : url ≠ "/index.html")
    (h3 : url ≠ "/api") (h4 : url ≠ "/stats") :
    handleRequest st url net =
      ({ status := 404, contentType := "text/plain" }, st) := by
  unfold handleRequest
  rw [if_neg (not_or.mpr ⟨h1, h2⟩), if_neg h3, if_neg h4]

/-- C8, witness: the 404 theorem applied to the URL `/nope`. -/
theorem unmatched_url_gets_404_instance :
    handleRequest initialState "/nope" (fun _ => NetResult.timedOut) =
      ({ status := 404, contentType := "text/plain" }, initialState) :=
  unmatched_url_gets_404 initialState "/nope" (fun _ => NetResult.timedOut)
    (by decide) (by decide) (by decide) (by decide)

/-- C9, counterexample: the counters are not mutated only by the Fetch
Client and the vehicle-display routine.  With `people/1` cached (truthy),
the Fetch Client call for it is a complete no-op on the state, yet the
character-display routine still raises `totalDataSize` from 0 to 2; and an
orchestrator run raises `fetchCount` from 0 to 1 even though `fetchResource`
never touches `fetchCount`. -/
theorem counters_mutated_outside_fetch_client :
    (fetchResource { initialState with cache := [("people/1", Json.obj [])] }
        "people/1" NetResult.timedOut).state =
      { initialState with cache := [("people/1", Json.obj [])] } ∧
    (displayCharacterData
        { initialState with cache := [("people/1", Json.obj [])] }
        (fun _ => NetResult.timedOut)).state.totalDataSize = 2 ∧
    (runDemo initialState (fun _ => NetResult.timedOut)).fetchCount = 1 :=
  ⟨rfl, rfl, rfl⟩

/-- C9, amended: no operation of the program ever resets or decreases any of
the four counters — every operation is monotone on `errorCount`,
`fetchCount`, `totalDataSize` and `lastCharacterId`.  The mutation sites,
however, are spread wider than the claim states: the Fetch Client itself
moves only the error counter (never `fetchCount`, `totalDataSize` or
`lastCharacterId`); the attempt counter is incremented by the orchestrator
and the data-size counter by the display routines. -/
theorem counters_never_decrease :
    (∀ (st : SwapiState) (op : Op), CountersLe st (applyOp st op)) ∧
      ∀ (st : SwapiState) (ep : String) (net : NetResult),
        (fetchResource st ep net).state.fetchCount = st.fetchCount ∧
        (fetchResource st ep net).state.totalDataSize = st.totalDataSize ∧
        (fetchResource st ep net).state.lastCharacterId = st.lastCharacterId :=
  ⟨countersLe_applyOp, fun st ep net =>
    ⟨fetchResource_fetchCount st ep net, fetchResource_totalDataSize st ep net,
      fetchResource_lastCharacterId st ep net⟩⟩

/-- C10: the vehicle cursor starts at 1 and is incremented only by the
vehicle-display routine — a Fetch Client call, each of the other four
display routines and the stats reader leave it exactly unchanged; every
operation either leaves it unchanged or — only when it is at most
`MAX_VEHICLE_ID` (4) — increments it by one, so the invariant
`1 ≤ lastCharacterId ≤ 5` is preserved by every operation; the
vehicle-display routine fetches only `vehicles/<id>` with the current cursor
value `id` between 1 and 4; and once the cursor exceeds 4 the routine is
permanently a no-op that fetches nothing. -/
theorem vehicle_cursor_invariant :
    initialState.lastCharacterId = 1 ∧
    (∀ (st : SwapiState) (ep : String) (net : NetResult),
        (applyOp st (Op.fetch ep net)).lastCharacterId = st.lastCharacterId) ∧
    (∀ (st : SwapiState) (net : String → NetResult),
        (applyOp st (Op.character net)).lastCharacterId = st.lastCharacterId ∧
        (applyOp st (Op.starships net)).lastCharacterId = st.lastCharacterId ∧
        (applyOp st (Op.planets net)).lastCharacterId = st.lastCharacterId ∧
        (applyOp st (Op.films net)).lastCharacterId = st.lastCharacterId) ∧
    (∀ (st : SwapiState),
        (applyOp st Op.stats).lastCharacterId = st.lastCharacterId) ∧
    (∀ (st : SwapiState) (op : Op), IdStep st (applyOp st op)) ∧
    (∀ (st : SwapiState) (op : Op), 1 ≤ st.lastCharacterId →
        st.lastCharacterId ≤ MAX_VEHICLE_ID + 1 →
        1 ≤ (applyOp st op).lastCharacterId ∧
          (applyOp st op).lastCharacterId ≤ MAX_VEHICLE_ID + 1) ∧
    (∀ (st : SwapiState) (net : String → NetResult) (ep : String),
        1 ≤ st.lastCharacterId → ep ∈ (displayVehicle st net).fetched →
        ∃ k, 1 ≤ k ∧ k ≤ MAX_VEHICLE_ID ∧ ep = "vehicles/" ++ toString k) ∧
    ∀ (st : SwapiState) (net : String → NetResult),
      MAX_VEHICLE_ID < st.lastCharacterId →
      displayVehicle st net = { result := .ok (), state := st, fetched := [] } := by
  refine ⟨rfl, fetchResource_lastCharacterId,
    fun st net =>
      ⟨fetchAndMeasure_state_lastCharacterId st
          ("people/" ++ toString st.lastCharacterId) net,
        fetchAndMeasure_state_lastCharacterId st "starships/?page=1" net,
        fetchAndMeasure_state_lastCharacterId st "planets/?page=1" net,
        fetchAndMeasure_state_lastCharacterId st "films/" net⟩,
    fun _ => rfl, idStep_applyOp, fun st op h1 h5 => ?_,
    fun st net ep h1 hmem => ?_, displayVehicle_of_gt⟩
  · rcases idStep_applyOp st op with h | ⟨hle, h⟩
    · rw [h]; exact ⟨h1, h5⟩
    · rw [h]
      exact ⟨Nat.le_succ_of_le h1, Nat.succ_le_succ hle⟩
  · rw [displayVehicle_fetched] at hmem
    by_cases hle : st.lastCharacterId ≤ MAX_VEHICLE_ID
    · rw [if_pos hle] at hmem
      rcases List.mem_singleton.mp hmem with rfl
      exact ⟨st.lastCharacterId, h1, hle, rfl⟩
    · rw [if_neg hle] at hmem
      exact absurd hmem (List.not_mem_nil ep)

/-- C10, witness: the invariant and no-op parts of the cursor theorem applied
at concrete states — one vehicle step from the initial state keeps the
cursor in bounds, and at cursor value 5 the routine does nothing. -/
theorem vehicle_cursor_invariant_instance :
    (1 ≤ (applyOp initialState
          (Op.vehicle fun _ => NetResult.timedOut)).lastCharacterId ∧
      (applyOp initialState
          (Op.vehicle fun _ => NetResult.timedOut)).lastCharacterId ≤
        MAX_VEHICLE_ID + 1) ∧
    displayVehicle { initialState with lastCharacterId := 5 }
        (fun _ => NetResult.timedOut) =
      { result := .ok ()
        state := { initialState with lastCharacterId := 5 }
        fetched := [] } :=
  ⟨vehicle_cursor_invariant.2.2.2.2.2.1 initialState
      (Op.vehicle fun _ => NetResult.timedOut) (by decide) (by decide),
    vehicle_cursor_invariant.2.2.2.2.2.2.2
      { initialState with lastCharacterId := 5 }
      (fun _ => NetResult.timedOut) (by decide)⟩

end Swapi
